import Mathlib

/-
Verification of the wifenote client-side synchronization engine.

The definitions below are a shallow embedding of the Tree Store and its
operations from `src/ui/src/store/tldraw.ts`, the wire-to-internal
transformation from `src/ui/src/App.tsx`, and the drag-and-drop / create
handlers from `src/ui/src/components/FolderView.tsx` and the FolderView
variant in `src/unnamed/part_007`.

Asynchronous network calls are modelled by an explicit `ApiOutcome`
argument: `thrown` stands for the `apiCall` promise rejecting (the TS
`catch` branch runs), `returned x` for it resolving with payload `x`.
Each store operation is a pure state transformer on the store record.
-/

namespace Wifenote

/-- Note kind, from `note-type` in the wire interface / `TlDrawNoteType` in
`src/ui/src/types/TlDraw.ts`. -/
inductive NoteType where
  | Tldraw
  | Markdown
deriving DecidableEq, Repr

/-- `TlDrawFolder` from `src/ui/src/types/TlDraw.ts`; the TS field
`parent-id` is spelled `parentId` here. -/
structure Folder where
  id : String
  name : String
  parentId : Option String
deriving DecidableEq, Repr

/-- `TlDrawNote` from `src/ui/src/types/TlDraw.ts`; the TS field
`folder-id` is spelled `folderId` here. -/
structure Note where
  id : String
  name : String
  folderId : Option String
  content : List Nat
  type : NoteType
  isPublic : Bool
  collaborators : List String
deriving DecidableEq, Repr

/-- `Invite` from `src/ui/src/types/TlDraw.ts`. -/
structure Invite where
  note_id : String
  inviter_node_id : String
  note_name : String
deriving DecidableEq, Repr

/-- The `view` field of the store: `'folder' | 'tldraw'`. -/
inductive ViewKind where
  | folder
  | tldraw
deriving DecidableEq, Repr

/-- The `dragging.type` field: `'note' | 'folder'`. -/
inductive DragKind where
  | note
  | folder
deriving DecidableEq, Repr

/-- The state fields of the zustand store in `src/ui/src/store/tldraw.ts`
(the function-valued members are modelled as the operations below). -/
structure TlDrawStore where
  view : ViewKind
  folders : List Folder
  notes : List Note
  currentNote : Option Note
  dragging : Option (DragKind × String)
  isLoading : Bool
  error : Option String
  collaborationInvites : List Invite
deriving DecidableEq, Repr

/-- Outcome of an awaited `apiCall` / `fetch`: `thrown` models the promise
rejecting (the `catch` branch runs), `returned x` models a response with
decoded payload `x`. -/
inductive ApiOutcome (α : Type) where
  | thrown : ApiOutcome α
  | returned : α → ApiOutcome α
deriving DecidableEq, Repr

/-- Wire-format folder (`ApiFolder` in `src/ui/src/types/TlDraw.ts`,
snake_case server fields). -/
structure ApiFolder where
  id : String
  name : String
  parent_id : Option String
deriving DecidableEq, Repr

/-- Wire-format note (`ApiNote` in `src/ui/src/types/TlDraw.ts`). -/
structure ApiNote where
  id : String
  name : String
  folder_id : Option String
  content : List Nat
  note_type : NoteType
  is_public : Bool
  collaborators : List String
deriving DecidableEq, Repr

/-- Wire-to-internal folder translation from the `GetStructure` handlers in
`src/ui/src/App.tsx` (lines 100-104): keeps id and name, renames
`parent_id` to `parent-id`. -/
def transformFolder (f : ApiFolder) : Folder :=
  { id := f.id, name := f.name, parentId := f.parent_id }

/-- Wire-to-internal note translation from the `GetStructure` handlers in
`src/ui/src/App.tsx` (lines 106-114). -/
def transformNote (n : ApiNote) : Note :=
  { id := n.id, name := n.name, folderId := n.folder_id, content := n.content,
    type := n.note_type, isPublic := n.is_public, collaborators := n.collaborators }

/-- `setStructure` from `src/ui/src/store/tldraw.ts` (lines 79-86):
overwrites `folders` and `notes` and clears `isLoading`. -/
def setStructure (s : TlDrawStore) (folders : List Folder) (notes : List Note) :
    TlDrawStore :=
  { s with folders := folders, notes := notes, isLoading := false }

/-- The snapshot pipeline: the wire-to-internal transformation applied to a
raw `GetStructure.Ok` payload, followed by `setStructure` (as done in
`App.tsx` for the initial load and for every push-channel message). -/
def applySnapshot (s : TlDrawStore) (rawFolders : List ApiFolder)
    (rawNotes : List ApiNote) : TlDrawStore :=
  setStructure s (rawFolders.map transformFolder) (rawNotes.map transformNote)

/-- `deleteNote` from `src/ui/src/store/tldraw.ts` (lines 109-122):
sets loading, awaits `apiCall {DeleteNote: id}`; on success filters the note
out of `notes`; on throw records the error; `finally` clears loading.
`currentNote` is not touched on any path. -/
def deleteNote (s : TlDrawStore) (id : String) (api : ApiOutcome Unit) :
    TlDrawStore :=
  let s1 := { s with isLoading := true, error := none }
  match api with
  | .returned _ =>
      let s2 := { s1 with notes := s1.notes.filter (fun (note : Note) => note.id != id) }
      { s2 with isLoading := false }
  | .thrown =>
      let s2 := { s1 with error := some "Failed to delete note" }
      { s2 with isLoading := false }

/-- `moveNote` from `src/ui/src/store/tldraw.ts` (lines 124-139). -/
def moveNote (s : TlDrawStore) (id : String) (folderId : Option String)
    (api : ApiOutcome Unit) : TlDrawStore :=
  let s1 := { s with isLoading := true, error := none }
  match api with
  | .returned _ =>
      let s2 := { s1 with notes := s1.notes.map (fun (note : Note) =>
        if note.id == id then { note with folderId := folderId } else note) }
      { s2 with isLoading := false }
  | .thrown =>
      let s2 := { s1 with error := some "Failed to move note" }
      { s2 with isLoading := false }

/-- `renameNote` from `src/ui/src/store/tldraw.ts` (lines 141-156).
Only the `notes` list is mapped; `currentNote` is not updated. -/
def renameNote (s : TlDrawStore) (id : String) (name : String)
    (api : ApiOutcome Unit) : TlDrawStore :=
  let s1 := { s with isLoading := true, error := none }
  match api with
  | .returned _ =>
      let s2 := { s1 with notes := s1.notes.map (fun (note : Note) =>
        if note.id == id then { note with name := name } else note) }
      { s2 with isLoading := false }
  | .thrown =>
      let s2 := { s1 with error := some "Failed to rename note" }
      { s2 with isLoading := false }

/-- `deleteFolder` from `src/ui/src/store/tldraw.ts` (lines 173-177):
a synchronous local filter of `folders`; no API call is made and the
`notes` list is not touched. -/
def deleteFolder (s : TlDrawStore) (id : String) : TlDrawStore :=
  { s with folders := s.folders.filter (fun (folder : Folder) => folder.id != id) }

/-- `moveFolder` from `src/ui/src/store/tldraw.ts` (lines 179-194). -/
def moveFolder (s : TlDrawStore) (id : String) (parentId : Option String)
    (api : ApiOutcome Unit) : TlDrawStore :=
  let s1 := { s with isLoading := true, error := none }
  match api with
  | .returned _ =>
      let s2 := { s1 with folders := s1.folders.map (fun (folder : Folder) =>
        if folder.id == id then { folder with parentId := parentId } else folder) }
      { s2 with isLoading := false }
  | .thrown =>
      let s2 := { s1 with error := some "Failed to move folder" }
      { s2 with isLoading := false }

/-- `renameFolder` from `src/ui/src/store/tldraw.ts` (lines 196-211). -/
def renameFolder (s : TlDrawStore) (id : String) (name : String)
    (api : ApiOutcome Unit) : TlDrawStore :=
  let s1 := { s with isLoading := true, error := none }
  match api with
  | .returned _ =>
      let s2 := { s1 with folders := s1.folders.map (fun (folder : Folder) =>
        if folder.id == id then { folder with name := name } else folder) }
      { s2 with isLoading := false }
  | .thrown =>
      let s2 := { s1 with error := some "Failed to rename folder" }
      { s2 with isLoading := false }

/-- `setNotePublic` from `src/ui/src/store/tldraw.ts` (lines 214-231).
The decoded payload models `response.SetNotePublic?.Ok` truthiness:
`some (Except.ok n)` is a response carrying a truthy `Ok` note, while
`some (Except.error msg)` (an `Err` variant) and `none` (a response without
a truthy `SetNotePublic.Ok`) take the no-update path. -/
def setNotePublic (s : TlDrawStore) (noteId : String) (isPublic : Bool)
    (api : ApiOutcome (Option (Except String Note))) : TlDrawStore :=
  let s1 := { s with isLoading := true, error := none }
  match api with
  | .returned (some (Except.ok _)) =>
      let s2 := { s1 with notes := s1.notes.map (fun (note : Note) =>
        if note.id == noteId then { note with isPublic := isPublic } else note) }
      { s2 with isLoading := false }
  | .returned _ => { s1 with isLoading := false }
  | .thrown =>
      { s1 with error := some "Failed to update note visibility", isLoading := false }

/-- `acceptInvite` from `src/ui/src/store/tldraw.ts` (lines 273-292).
On a truthy `AcceptInvite.Ok` note the returned note is appended and every
pending invite whose `note_id` equals `noteId` is filtered out (the
`inviterNodeId` argument is only sent to the server, never used in the
filter). -/
def acceptInvite (s : TlDrawStore) (noteId : String) (inviterNodeId : String)
    (api : ApiOutcome (Option Note)) : TlDrawStore :=
  let s1 := { s with isLoading := true, error := none }
  match api with
  | .returned (some newNote) =>
      let s2 := { s1 with
        notes := s1.notes ++ [newNote],
        collaborationInvites := s1.collaborationInvites.filter (fun (invite : Invite) =>
          invite.note_id != noteId) }
      { s2 with isLoading := false }
  | .returned none => { s1 with isLoading := false }
  | .thrown =>
      { s1 with error := some "Failed to accept invite", isLoading := false }

/-- `rejectInvite` from `src/ui/src/store/tldraw.ts` (lines 294-309).
On success every pending invite whose `note_id` equals `noteId` is removed,
regardless of its `inviter_node_id`. -/
def rejectInvite (s : TlDrawStore) (noteId : String) (inviterNodeId : String)
    (api : ApiOutcome Unit) : TlDrawStore :=
  let s1 := { s with isLoading := true, error := none }
  match api with
  | .returned _ =>
      let s2 := { s1 with collaborationInvites := s1.collaborationInvites.filter (fun (invite : Invite) =>
        invite.note_id != noteId) }
      { s2 with isLoading := false }
  | .thrown =>
      { s1 with error := some "Failed to reject invite", isLoading := false }

/-- `findParentChain` inside `isFolderDescendant` in
`src/ui/src/components/FolderView.tsx` (lines 40-48): starting from
`currentId`, repeatedly look the folder up and follow `parent-id`,
accumulating each parent id in the chain; stop when the folder is missing
or has a null parent. The TS recursion carries no fuel and terminates
exactly when this walk stops; on an acyclic folder list the walk visits at
most `folders.length` folders, so a fuel of `folders.length` reproduces it
exactly (the fuel only truncates on a cyclic list, where the TS recursion
would not terminate at all). -/
def findParentChain (folders : List Folder) : Nat → String → List String → List String
  | 0, _, chain => chain
  | fuel + 1, currentId, chain =>
    match folders.find? (fun f => f.id == currentId) with
    | none => chain
    | some folder =>
      match folder.parentId with
      | none => chain
      | some p => findParentChain folders fuel p (chain ++ [p])

/-- `isFolderDescendant(folderId, targetId)` from
`src/ui/src/components/FolderView.tsx` (lines 40-48): whether `folderId`
occurs in the strict ancestor chain of `targetId`. -/
def isFolderDescendant (folders : List Folder) (folderId targetId : String) : Bool :=
  (findParentChain folders folders.length targetId []).contains folderId

/-- The folder branch of `handleDrop` in
`src/ui/src/components/FolderView.tsx` (lines 341-362). Returns whether
the `MoveFolder` network request was sent, paired with the resulting
store. The validity gate is exactly
`!targetFolderId || !isFolderDescendant(dragging.id, targetFolderId)`;
when it fails, `setError` records the message and the handler returns
before any fetch. When it passes, the request is sent; on failure the
catch branch records the error, on success the store `moveFolder` local
update runs (guarded by `folders.find`). The `finally` clears `dragging`. -/
def handleDropFolder (s : TlDrawStore) (draggingId : String)
    (targetFolderId : Option String) (api : ApiOutcome Unit) :
    Bool × TlDrawStore :=
  let isValidMove :=
    match targetFolderId with
    | none => true
    | some t => !(isFolderDescendant s.folders draggingId t)
  if isValidMove then
    match api with
    | .thrown => (true, { s with error := some "Failed to move folder", dragging := none })
    | .returned _ =>
        if s.folders.any (fun f => f.id == draggingId) then
          let s2 := moveFolder s draggingId targetFolderId (.returned ())
          (true, { s2 with dragging := none })
        else
          (true, { s with dragging := none })
  else
    (false, { s with
      error := some "Cannot move a folder into itself or its children",
      dragging := none })

/-- `handleCreateFolder` from `src/ui/src/components/FolderView.tsx`
(lines 195-206): prompts for a name, posts `CreateFolder`, and throws on a
non-ok response. It never issues a `GetStructure` re-fetch and never
touches the store (a thrown error propagates out of the handler without
being recorded). Result: the store, paired with whether a `GetStructure`
re-fetch was issued (always `false`). -/
def handleCreateFolderMain (s : TlDrawStore) (api : ApiOutcome Unit) :
    TlDrawStore × Bool :=
  match api with
  | .thrown => (s, false)
  | .returned _ => (s, false)

/-- `handleCreateFolder` from the FolderView variant in
`src/unnamed/part_007` (lines 60-116): posts `CreateFolder`; if the
response carries `CreateFolder.Ok` it re-fetches `GetStructure`, and on
`GetStructure.Ok` transforms the payload and calls `setStructure`; any
thrown error is caught and recorded; `finally` clears loading.
`createResp` decodes `data.CreateFolder.Ok` (the new id when present);
`structResp` decodes `structureData.GetStructure.Ok`. Result: the store,
paired with whether the `GetStructure` re-fetch was issued. -/
def handleCreateFolderV2 (s : TlDrawStore)
    (createResp : ApiOutcome (Option String))
    (structResp : ApiOutcome (Option (List ApiFolder × List ApiNote))) :
    TlDrawStore × Bool :=
  let s1 := { s with error := none, isLoading := true }
  match createResp with
  | .thrown =>
      ({ s1 with error := some "Failed to create folder", isLoading := false }, false)
  | .returned none => ({ s1 with isLoading := false }, false)
  | .returned (some _) =>
    match structResp with
    | .thrown =>
        ({ s1 with error := some "Failed to get updated structure", isLoading := false }, true)
    | .returned none => ({ s1 with isLoading := false }, true)
    | .returned (some (rawFolders, rawNotes)) =>
        let s2 := setStructure s1 (rawFolders.map transformFolder)
          (rawNotes.map transformNote)
        ({ s2 with isLoading := false }, true)

/-- Whether following `parent-id` from folder id `id` reaches a root
(null parent) within `fuel` lookups: the termination notion of the
spec's no-cycle invariant. A missing folder or exhausted fuel counts as
not reaching a root. -/
def chainTerminates (folders : List Folder) : Nat → String → Bool
  | 0, _ => false
  | fuel + 1, id =>
    match folders.find? (fun f => f.id == id) with
    | none => false
    | some folder =>
      match folder.parentId with
      | none => true
      | some p => chainTerminates folders fuel p

/-- A store with the given folders and notes and all other fields at their
initial values from `src/ui/src/store/tldraw.ts` (lines 66-74). -/
def mkStore (folders : List Folder) (notes : List Note) : TlDrawStore :=
  { view := .folder, folders := folders, notes := notes, currentNote := none,
    dragging := none, isLoading := false, error := none, collaborationInvites := [] }

/-- Concrete single-folder acyclic store: one root folder `A`. -/
def folderA : Folder := { id := "A", name := "A", parentId := none }

/-- Store containing only `folderA`. -/
def storeOneFolder : TlDrawStore := mkStore [folderA] []

/-- Concrete folder `F` for the delete-folder scenario. -/
def folderF : Folder := { id := "F", name := "F", parentId := none }

/-- Concrete note living inside `folderF`. -/
def noteInF : Note :=
  { id := "N", name := "N", folderId := some "F", content := [],
    type := .Markdown, isPublic := false, collaborators := [] }

/-- Store containing `folderF` and `noteInF`. -/
def storeFN : TlDrawStore := mkStore [folderF] [noteInF]

/-- Concrete note used for the selection-consistency scenario. -/
def noteOld : Note :=
  { id := "n1", name := "old", folderId := none, content := [],
    type := .Tldraw, isPublic := false, collaborators := [] }

/-- Store whose notes list and current-note selection both hold `noteOld`. -/
def storeSel : TlDrawStore :=
  { mkStore [] [noteOld] with currentNote := some noteOld }

/-- The store after dropping folder `A` onto itself in `storeOneFolder`
with a successful network round-trip. -/
def storeAfterSelfMove : TlDrawStore :=
  (handleDropFolder storeOneFolder "A" (some "A") (.returned ())).2

/-- Empty store (all lists empty). -/
def storeEmpty : TlDrawStore := mkStore [] []

/-- Store holding only `noteOld`, for the setNotePublic scenario. -/
def storePub : TlDrawStore := mkStore [] [noteOld]

/-- A folder unrelated to the ids used in the no-op scenario. -/
def folderOther : Folder := { id := "f1", name := "G", parentId := none }

/-- Store with one folder `f1` and one note `n1`, neither with id `zz`. -/
def storeC9 : TlDrawStore := mkStore [folderOther] [noteOld]

/-- Pending invite for note `n1` from node `alice`. -/
def invite1 : Invite := { note_id := "n1", inviter_node_id := "alice", note_name := "N" }

/-- Pending invite for the same note `n1` from a different node `bob`. -/
def invite2 : Invite := { note_id := "n1", inviter_node_id := "bob", note_name := "N" }

/-- Store with the two pending invites for the same note. -/
def storeC10 : TlDrawStore :=
  { mkStore [] [] with collaborationInvites := [invite1, invite2] }

/-- If no element of the list has key equal to `id`, the conditional update
map used by the rename/move mutators is the identity. -/
theorem map_if_id_absent {α : Type} (l : List α) (key : α → String) (id : String)
    (f : α → α) (h : ∀ x ∈ l, (key x == id) = false) :
    (l.map (fun x => if key x == id then f x else x)) = l := by
  induction l with
  | nil => rfl
  | cons a t ih =>
    have ha : ¬ ((key a == id) = true) := by
      simp [h a (List.mem_cons_self a t)]
    simp only [List.map_cons, if_neg ha]
    rw [ih (fun x hx => h x (List.mem_cons_of_mem a hx))]

/-- If no element of the list has key equal to `id`, the filter used by the
delete mutators keeps every element. -/
theorem filter_ne_id_absent {α : Type} (l : List α) (key : α → String) (id : String)
    (h : ∀ x ∈ l, (key x == id) = false) :
    (l.filter (fun x => key x != id)) = l := by
  induction l with
  | nil => rfl
  | cons a t ih =>
    have ha : (key a != id) = true := by
      simp [bne, h a (List.mem_cons_self a t)]
    have hstep : List.filter (fun x => key x != id) (a :: t)
        = a :: List.filter (fun x => key x != id) t := by
      simp [List.filter_cons, ha]
    rw [hstep, ih (fun x hx => h x (List.mem_cons_of_mem a hx))]

/-- Claim C1 (code bug). The no-cycle invariant is not preserved by the
gate actually implemented: `storeOneFolder` is acyclic (the parent chain
from its only folder `A` reaches a root within `folders.length` steps), yet
dropping `A` onto itself passes the `isFolderDescendant` gate (which only
collects strict ancestors of the target), so the `MoveFolder` request is
sent and the local update sets `A`'s parent-id to `A`; in the resulting
store the parent chain from `A` no longer reaches a root within
`folders.length` steps. -/
theorem c1_no_cycle_invariant_violated :
    chainTerminates storeOneFolder.folders storeOneFolder.folders.length "A" = true
    ∧ (handleDropFolder storeOneFolder "A" (some "A") (.returned ())).1 = true
    ∧ chainTerminates storeAfterSelfMove.folders storeAfterSelfMove.folders.length "A"
        = false := by
  decide

/-- Claim C2 (code bug). A folder move whose target parent equals the moved
folder's own id is not rejected locally: in `storeOneFolder`, dropping `A`
onto `A` sends the `MoveFolder` network request (first component `true`),
changes the folders list (parent-id becomes `A` itself), and records no
error, while the claim demands a local rejection with no network call and
an unchanged store. -/
theorem c2_self_move_not_rejected :
    (handleDropFolder storeOneFolder "A" (some "A") (.returned ())).1 = true
    ∧ storeAfterSelfMove.folders = [{ id := "A", name := "A", parentId := some "A" }]
    ∧ storeAfterSelfMove.error = none := by
  decide

/-- Claim C3: rollback correctness. When the network request of
renameNote, renameFolder, moveNote or moveFolder throws, the resulting
store is the original store with only the error message set and the
loading flag cleared: folders, notes, and every other field are exactly as
before the call. -/
theorem c3_rollback_correctness (s : TlDrawStore) (id name : String)
    (folderId parentId : Option String) :
    renameNote s id name .thrown
        = { s with error := some "Failed to rename note", isLoading := false }
    ∧ renameFolder s id name .thrown
        = { s with error := some "Failed to rename folder", isLoading := false }
    ∧ moveNote s id folderId .thrown
        = { s with error := some "Failed to move note", isLoading := false }
    ∧ moveFolder s id parentId .thrown
        = { s with error := some "Failed to move folder", isLoading := false } :=
  ⟨rfl, rfl, rfl, rfl⟩

/-- Claim C4 is refuted: in `storeFN` (folder `F` containing note `N`),
`deleteFolder "F"` removes the folder but the surviving note still carries
folder-id `F`, not the claimed null. -/
theorem c4_orphan_on_delete_counterexample :
    (deleteFolder storeFN "F").folders = []
    ∧ (deleteFolder storeFN "F").notes.map Note.folderId = [some "F"] := by
  decide

/-- Claim C4 (amended): `deleteFolder` removes every folder whose id
matches from the folders list, and leaves the notes list (and the current
note) entirely unchanged — notes that pointed at the deleted folder keep
their dangling folder-id. -/
theorem c4_delete_folder_behavior (s : TlDrawStore) (id : String) :
    (deleteFolder s id).folders
        = s.folders.filter (fun (folder : Folder) => folder.id != id)
    ∧ (∀ f ∈ (deleteFolder s id).folders, (f.id == id) = false)
    ∧ (deleteFolder s id).notes = s.notes
    ∧ (deleteFolder s id).currentNote = s.currentNote := by
  refine ⟨rfl, ?_, rfl, rfl⟩
  intro f hf
  have hkeep := List.of_mem_filter hf
  simpa [bne] using hkeep

/-- Witness for `c4_delete_folder_behavior` at the concrete store
`storeFN`. -/
theorem c4_delete_folder_behavior_witness :
    (deleteFolder storeFN "F").notes = storeFN.notes :=
  (c4_delete_folder_behavior storeFN "F").2.2.1

/-- Claim C5 is refuted: in `storeSel` the open note `noteOld` (id `n1`,
name `old`) is deleted from the notes list, yet `currentNote` still holds
the deleted note instead of being cleared; and after `renameNote` the
notes list carries the new name while `currentNote` still shows the old
one. -/
theorem c5_selection_consistency_counterexample :
    (deleteNote storeSel "n1" (.returned ())).notes = []
    ∧ (deleteNote storeSel "n1" (.returned ())).currentNote = some noteOld
    ∧ (renameNote storeSel "n1" "renamed" (.returned ())).currentNote = some noteOld
    ∧ noteOld.name = "old" := by
  decide

/-- Claim C5 (amended): successful `deleteNote` and `renameNote` never
touch `currentNote` — deletion leaves it referencing the removed note and
renaming leaves its stale name — while the notes list itself is filtered
or renamed as usual (only `updateNote` keeps the selection in sync). -/
theorem c5_current_note_untouched (s : TlDrawStore) (id name : String) :
    (deleteNote s id (.returned ())).currentNote = s.currentNote
    ∧ (renameNote s id name (.returned ())).currentNote = s.currentNote
    ∧ (deleteNote s id (.returned ())).notes
        = s.notes.filter (fun (note : Note) => note.id != id)
    ∧ (renameNote s id name (.returned ())).notes
        = s.notes.map (fun (note : Note) =>
            if note.id == id then { note with name := name } else note) :=
  ⟨rfl, rfl, rfl, rfl⟩

/-- Claim C6: `setNotePublic` updates the matching note's `isPublic` to the
requested flag exactly when the response is the truthy success variant
`{Ok: updatedNote}`; an `{Err: msg}` response, a response without a truthy
`Ok`, and a thrown call all leave the notes list — and the folders,
current note and invites — unchanged. -/
theorem c6_set_note_public (s : TlDrawStore) (noteId : String) (flag : Bool)
    (n : Note) (msg : String) :
    (setNotePublic s noteId flag (.returned (some (Except.ok n)))).notes
        = s.notes.map (fun (note : Note) =>
            if note.id == noteId then { note with isPublic := flag } else note)
    ∧ (∀ m ∈ s.notes, m.id = noteId →
        { m with isPublic := flag }
          ∈ (setNotePublic s noteId flag (.returned (some (Except.ok n)))).notes)
    ∧ (setNotePublic s noteId flag (.returned (some (Except.error msg)))).notes = s.notes
    ∧ (setNotePublic s noteId flag (.returned none)).notes = s.notes
    ∧ (setNotePublic s noteId flag .thrown).notes = s.notes
    ∧ (setNotePublic s noteId flag (.returned (some (Except.error msg)))).folders = s.folders
    ∧ (setNotePublic s noteId flag (.returned (some (Except.error msg)))).currentNote
        = s.currentNote
    ∧ (setNotePublic s noteId flag (.returned (some (Except.error msg)))).collaborationInvites
        = s.collaborationInvites := by
  refine ⟨rfl, ?_, rfl, rfl, rfl, rfl, rfl, rfl⟩
  intro m hm hid
  show { m with isPublic := flag }
      ∈ s.notes.map (fun (note : Note) =>
          if note.id == noteId then { note with isPublic := flag } else note)
  have hmap := List.mem_map_of_mem (fun (note : Note) =>
    if note.id == noteId then { note with isPublic := flag } else note) hm
  simpa [hid] using hmap

/-- Witness for `c6_set_note_public`: in `storePub` a success response
flips `noteOld`'s visibility to public. -/
theorem c6_set_note_public_witness :
    { noteOld with isPublic := true }
      ∈ (setNotePublic storePub "n1" true (.returned (some (Except.ok noteOld)))).notes :=
  (c6_set_note_public storePub "n1" true noteOld "unauthorized").2.1 noteOld
    (by decide) (by decide)

/-- Claim C7: idempotent reconciliation. Applying the snapshot pipeline
(wire transformation plus `setStructure`) twice with the same raw payload
produces exactly the state of applying it once. -/
theorem c7_idempotent_reconciliation (s : TlDrawStore)
    (rawFolders : List ApiFolder) (rawNotes : List ApiNote) :
    applySnapshot (applySnapshot s rawFolders rawNotes) rawFolders rawNotes
      = applySnapshot s rawFolders rawNotes :=
  rfl

/-- Claim C8 is refuted for the `FolderView.tsx` variant: after a
successful `CreateFolder` post, `handleCreateFolderMain` issues no
`GetStructure` re-fetch (second component `false`) and leaves the store
exactly as it was (here the empty store), instead of wholesale replacing
it with a re-fetched structure. -/
theorem c8_create_folder_no_refetch_counterexample :
    handleCreateFolderMain storeEmpty (.returned ()) = (storeEmpty, false) :=
  rfl

/-- Claim C8 (amended): the FolderView variant of `src/unnamed/part_007`
behaves as claimed — after a successful create (response carrying
`CreateFolder.Ok`) the structure is re-fetched (second component `true`)
and the store's folders and notes are wholesale replaced by the
transformed payload; when the create call throws, the folders and notes
are unchanged, the error is surfaced, and no re-fetch happens. The
`FolderView.tsx` variant instead never re-fetches nor touches the store. -/
theorem c8_create_folder_v2_refetch (s : TlDrawStore) (newId : String)
    (rawFolders : List ApiFolder) (rawNotes : List ApiNote)
    (structResp : ApiOutcome (Option (List ApiFolder × List ApiNote))) :
    (handleCreateFolderV2 s (.returned (some newId))
        (.returned (some (rawFolders, rawNotes)))).2 = true
    ∧ (handleCreateFolderV2 s (.returned (some newId))
        (.returned (some (rawFolders, rawNotes)))).1.folders
        = rawFolders.map transformFolder
    ∧ (handleCreateFolderV2 s (.returned (some newId))
        (.returned (some (rawFolders, rawNotes)))).1.notes
        = rawNotes.map transformNote
    ∧ (handleCreateFolderV2 s .thrown structResp).1.folders = s.folders
    ∧ (handleCreateFolderV2 s .thrown structResp).1.notes = s.notes
    ∧ (handleCreateFolderV2 s .thrown structResp).1.error
        = some "Failed to create folder"
    ∧ (handleCreateFolderV2 s .thrown structResp).2 = false :=
  ⟨rfl, rfl, rfl, rfl, rfl, rfl, rfl⟩

/-- Claim C9: no-op on nonexistent id. When no note and no folder carries
the id, the local-apply step of every mutator (rename/move/delete on notes
and folders) leaves both the notes and the folders lists unchanged; the
mutators are total functions, so no crash is possible. -/
theorem c9_noop_on_nonexistent_id (s : TlDrawStore) (id name : String)
    (folderId parentId : Option String)
    (hn : ∀ n ∈ s.notes, (n.id == id) = false)
    (hf : ∀ f ∈ s.folders, (f.id == id) = false) :
    (renameNote s id name (.returned ())).notes = s.notes
    ∧ (renameNote s id name (.returned ())).folders = s.folders
    ∧ (moveNote s id folderId (.returned ())).notes = s.notes
    ∧ (moveNote s id folderId (.returned ())).folders = s.folders
    ∧ (deleteNote s id (.returned ())).notes = s.notes
    ∧ (deleteNote s id (.returned ())).folders = s.folders
    ∧ (renameFolder s id name (.returned ())).folders = s.folders
    ∧ (renameFolder s id name (.returned ())).notes = s.notes
    ∧ (moveFolder s id parentId (.returned ())).folders = s.folders
    ∧ (moveFolder s id parentId (.returned ())).notes = s.notes
    ∧ (deleteFolder s id).folders = s.folders
    ∧ (deleteFolder s id).notes = s.notes := by
  refine ⟨?_, rfl, ?_, rfl, ?_, rfl, ?_, rfl, ?_, rfl, ?_, rfl⟩
  · exact map_if_id_absent s.notes (fun n => n.id) id
      (fun n => { n with name := name }) hn
  · exact map_if_id_absent s.notes (fun n => n.id) id
      (fun n => { n with folderId := folderId }) hn
  · exact filter_ne_id_absent s.notes (fun n => n.id) id hn
  · exact map_if_id_absent s.folders (fun f => f.id) id
      (fun f => { f with name := name }) hf
  · exact map_if_id_absent s.folders (fun f => f.id) id
      (fun f => { f with parentId := parentId }) hf
  · exact filter_ne_id_absent s.folders (fun f => f.id) id hf

/-- Witness for `c9_noop_on_nonexistent_id` at the concrete store
`storeC9` and the absent id `zz`. -/
theorem c9_noop_on_nonexistent_id_witness :
    (renameNote storeC9 "zz" "x" (.returned ())).notes = storeC9.notes :=
  (c9_noop_on_nonexistent_id storeC9 "zz" "x" none none
    (by decide) (by decide)).1

/-- Claim C10: invite removal is keyed by note id only. A successful
`rejectInvite`, and the invite-removal step of a successful
`acceptInvite`, replace the pending-invite list by the invites whose
`note_id` differs from the given one, so any pending invite for that note
is removed regardless of its `inviter_node_id`. -/
theorem c10_invite_removal_keyed_by_note_id (s : TlDrawStore)
    (noteId inviterNodeId : String) (newNote : Note) (i : Invite)
    (hi : i ∈ s.collaborationInvites) (hid : i.note_id = noteId) :
    (rejectInvite s noteId inviterNodeId (.returned ())).collaborationInvites
        = s.collaborationInvites.filter (fun (invite : Invite) => invite.note_id != noteId)
    ∧ (acceptInvite s noteId inviterNodeId (.returned (some newNote))).collaborationInvites
        = s.collaborationInvites.filter (fun (invite : Invite) => invite.note_id != noteId)
    ∧ i ∉ (rejectInvite s noteId inviterNodeId (.returned ())).collaborationInvites
    ∧ i ∉ (acceptInvite s noteId inviterNodeId (.returned (some newNote))).collaborationInvites := by
  have hmem : i ∉ s.collaborationInvites.filter
      (fun (invite : Invite) => invite.note_id != noteId) := by
    intro hcontra
    have hkeep := List.of_mem_filter hcontra
    simp [hid] at hkeep
  exact ⟨rfl, rfl, hmem, hmem⟩

/-- Witness for `c10_invite_removal_keyed_by_note_id`: in `storeC10` the
two pending invites for note `n1` from different inviters are both removed
by a single reject. -/
theorem c10_invite_removal_witness :
    invite1 ∉ (rejectInvite storeC10 "n1" "alice" (.returned ())).collaborationInvites
    ∧ invite2 ∉ (rejectInvite storeC10 "n1" "alice" (.returned ())).collaborationInvites :=
  ⟨(c10_invite_removal_keyed_by_note_id storeC10 "n1" "alice" noteOld invite1
      (by decide) rfl).2.2.1,
   (c10_invite_removal_keyed_by_note_id storeC10 "n1" "alice" noteOld invite2
      (by decide) rfl).2.2.1⟩

end Wifenote
